import Mathlib

/-!
Verification of the ParkShare spot-lifecycle core.

Shallow embedding of the repository code:
- `src/models/firestore.ts` (data model),
- `src/services/parkingService.ts` (creation, update, realtime listen, confirm),
- `src/services/pointsService.ts` (points ledger),
- the AddParkingSpotScreen submit flow and the `useMapPins` hook.

Conventions of the embedding:
- JavaScript numbers that carry timestamps are modelled as `ℤ` (epoch millis),
  coordinates and point balances as `ℚ`.
- The Firestore collection is a `List ParkingSpot`; a document read is an
  `Option ParkingSpot`; a thrown `Error(msg)` is `Except.error msg`.
- `Date.now()` / `serverTimestamp()` are one authoritative instant passed in as
  a `now : ℤ` parameter (single-clock model, no concurrency).
- The haversine helper `calculateDistance` performs floating-point
  trigonometry; it is not expressible as an executable definition here, so the
  realtime-listen embedding is parametric in a kilometre-valued distance
  function `dist lat1 lon1 lat2 lon2`, exactly at the one call site the source
  has. All structural facts below hold for every such function, hence in
  particular for the haversine of `parkingService.ts` lines 650-662.
-/

deriving instance DecidableEq for Except

namespace ParkShare

/-- Drop leading whitespace characters from a character list. Helper for
`jsTrim`. -/
def dropLeadingWs : List Char → List Char
  | [] => []
  | c :: cs => if c.isWhitespace then dropLeadingWs cs else c :: cs

/-- Model of `String.prototype.trim()`: remove whitespace from both ends of a
string. Spelled out on the character list so that concrete instances
evaluate. -/
def jsTrim (s : String) : String :=
  ⟨(dropLeadingWs (dropLeadingWs s.data).reverse).reverse⟩

/-- Pin subtype, from `models/firestore.ts` (`PinType`):
`walk-in` and `leaving-soon`. -/
inductive PinType
  | walkIn
  | leavingSoon
  deriving DecidableEq, Repr

/-- Stored spot status, from `models/firestore.ts` (`ParkingStatus`): the four
legacy generic values plus the four type-specific values. -/
inductive ParkingStatus
  | potentiallyFree
  | verified
  | expired
  | occupied
  | walkInPending
  | walkInExpired
  | leavingSoonActive
  | leavingSoonExpired
  deriving DecidableEq, Repr

/-- A latitude/longitude pair (`ParkingSpot.location`). -/
structure Location where
  latitude : ℚ
  longitude : ℚ
  deriving DecidableEq, Repr

/-- A document of the `parkingSpots` collection, from `models/firestore.ts`
(`ParkingSpot`). The `updatedAt` field carries the `updatedAt: serverTimestamp()`
value every write path of `parkingService.ts` maintains on the stored document. -/
structure ParkingSpot where
  id : String
  userId : String
  location : Location
  pinType : PinType
  willLeaveIn : Option ℤ
  isPaid : Bool
  status : ParkingStatus
  expiresAt : ℤ
  createdAt : ℤ
  updatedAt : ℤ
  priorityScore : ℚ
  vehicleBrand : Option String
  vehicleModel : Option String
  vehicleColor : Option String
  title : Option String
  description : Option String
  deriving DecidableEq, Repr

/-- A document of the `parkHistory` collection as written by `confirmParking`
(`userId` is the confirmer, `authorUserId` the spot owner). -/
structure ParkHistory where
  userId : String
  spotId : String
  authorUserId : String
  confirmedAt : ℤ
  ratingGiven : Option ℤ
  deriving DecidableEq, Repr

/-- The status strings the read paths of `parkingService.ts` treat as expired:
`['walk_in_expired', 'leaving_soon_expired', 'expired']`. -/
def expiredStatuses : List ParkingStatus :=
  [.walkInExpired, .leavingSoonExpired, .expired]

/-- Insert a spot into a list kept in `createdAt`-descending order. Helper
for `sortByCreatedAtDesc`. -/
def insertByCreatedAtDesc (a : ParkingSpot) : List ParkingSpot → List ParkingSpot
  | [] => [a]
  | b :: bs =>
    if decide (b.createdAt ≤ a.createdAt) then a :: b :: bs
    else b :: insertByCreatedAtDesc a bs

/-- The `createdAt`-descending sort of `getUserParkingSpots` (the comparator
`(a, b) => b.createdAt - a.createdAt`). `Array.prototype.sort` leaves the
algorithm unspecified; it is modelled by insertion sort, and the facts below
depend only on the membership of the result. -/
def sortByCreatedAtDesc : List ParkingSpot → List ParkingSpot
  | [] => []
  | a :: as => insertByCreatedAtDesc a (sortByCreatedAtDesc as)

/-- Embedding of `getUserParkingSpots(userId, includeExpired)`
(`parkingService.ts` lines 508-557): fetch the documents with matching
`userId`, client-side drop expired ones unless `includeExpired`, and sort by
`createdAt` descending. -/
def getUserParkingSpots (coll : List ParkingSpot) (userId : String)
    (includeExpired : Bool) (now : ℤ) : Except String (List ParkingSpot) :=
  if decide (jsTrim userId = "") then .error "User ID is required"
  else
    let fetched := coll.filter (fun s => decide (s.userId = userId))
    let kept := fetched.filter (fun s =>
      if !includeExpired then
        if decide (s.status ∈ expiredStatuses) then false
        else if decide (s.expiresAt ≤ now) then false
        else true
      else true)
    .ok (sortByCreatedAtDesc kept)

/-- Input of `createParkingSpot` (`Omit<ParkingSpot, 'id'>`): the caller
supplies every stored field except the document id; `createdAt`/`updatedAt`
are overwritten with `serverTimestamp()` on write. -/
structure SpotData where
  userId : String
  location : Location
  pinType : PinType
  willLeaveIn : Option ℤ
  isPaid : Bool
  status : ParkingStatus
  expiresAt : ℤ
  createdAt : ℤ
  priorityScore : ℚ
  vehicleBrand : Option String
  vehicleModel : Option String
  vehicleColor : Option String
  title : Option String
  description : Option String
  deriving DecidableEq, Repr

/-- Embedding of `createParkingSpot(spotData)` (`parkingService.ts` lines
70-154). Validation order follows the source: userId, latitude range,
longitude range, pin type (always valid on the enum embedding),
`willLeaveIn` for leaving-soon (`!spotData.willLeaveIn` catches `undefined`
and `0`; `0` is also below `2`), then the leaving-soon uniqueness pre-check
(its own failures are logged and ignored, only the duplicate message blocks),
then `expiresAt` (`!spotData.expiresAt` catches `0`) and `priorityScore`.
Returns the stored document with `createdAt`/`updatedAt` set to server time. -/
def createParkingSpot (now : ℤ) (coll : List ParkingSpot) (newId : String)
    (spotData : SpotData) : Except String ParkingSpot :=
  if decide (jsTrim spotData.userId = "") then .error "User ID is required"
  else if decide (spotData.location.latitude < -90) ||
      decide (spotData.location.latitude > 90) then
    .error "Invalid latitude (must be between -90 and 90)"
  else if decide (spotData.location.longitude < -180) ||
      decide (spotData.location.longitude > 180) then
    .error "Invalid longitude (must be between -180 and 180)"
  else if decide (spotData.pinType = .leavingSoon) &&
      (match spotData.willLeaveIn with
        | none => true
        | some w => decide (w < 2) || decide (w > 60)) then
    .error "willLeaveIn must be between 2 and 60 minutes for leaving-soon pins"
  else
    let dupBlocked : Bool :=
      if decide (spotData.pinType = .leavingSoon) then
        match getUserParkingSpots coll spotData.userId false now with
        | .error _ => false
        | .ok userSpots =>
          let activeLeavingSoon := userSpots.filter (fun s =>
            decide (s.pinType = .leavingSoon) && decide (s.status = .leavingSoonActive) &&
              decide (now < s.expiresAt))
          decide (0 < activeLeavingSoon.length)
      else false
    if dupBlocked then .error "You already have an active Leaving Soon pin."
    else if decide (spotData.expiresAt = 0) || decide (spotData.expiresAt < now) then
      .error "expiresAt must be a future timestamp"
    else if decide (spotData.priorityScore < 0) then
      .error "priorityScore must be a non-negative number"
    else
      .ok
        { id := newId
          userId := spotData.userId
          location := spotData.location
          pinType := spotData.pinType
          willLeaveIn := spotData.willLeaveIn
          isPaid := spotData.isPaid
          status := spotData.status
          expiresAt := spotData.expiresAt
          createdAt := now
          updatedAt := now
          priorityScore := spotData.priorityScore
          vehicleBrand := spotData.vehicleBrand
          vehicleModel := spotData.vehicleModel
          vehicleColor := spotData.vehicleColor
          title := spotData.title
          description := spotData.description }

/-- The patch accepted by `updateParkingSpot` (`parkingService.ts` lines
358-365, plus the `isPaid` branch of line 446): every field optional,
`none` meaning the field is absent from the patch. -/
structure SpotUpdates where
  title : Option String
  description : Option String
  pinType : Option PinType
  status : Option ParkingStatus
  willLeaveIn : Option ℤ
  expiresAt : Option ℤ
  isPaid : Option Bool
  deriving DecidableEq, Repr

/-- Embedding of `updateParkingSpot(spotId, userId, updates)`
(`parkingService.ts` lines 355-460): id checks, existence, owner-only
authorization, re-validation of touched fields (the source's pinType and
status membership checks are vacuously true on the enum embedding), then a
field-wise merge of the patch into the stored document together with a fresh
`updatedAt`. Provided `title`/`description` values are trimmed. -/
def updateParkingSpot (now : ℤ) (spotDoc : Option ParkingSpot)
    (spotId userId : String) (updates : SpotUpdates) :
    Except String ParkingSpot :=
  if decide (jsTrim spotId = "") then .error "Spot ID is required"
  else if decide (jsTrim userId = "") then .error "User ID is required"
  else
    match spotDoc with
    | none => .error "Parking spot not found"
    | some spotData =>
      if !decide (spotData.userId = userId) then
        .error "You do not have permission to edit this parking spot"
      else if (match updates.willLeaveIn with
          | some w => decide (w < 2) || decide (w > 60)
          | none => false) then
        .error "willLeaveIn must be between 2 and 60 minutes"
      else
        .ok
          { spotData with
            updatedAt := now
            title := match updates.title with
              | some t => some (jsTrim t)
              | none => spotData.title
            description := match updates.description with
              | some d => some (jsTrim d)
              | none => spotData.description
            pinType := updates.pinType.getD spotData.pinType
            status := updates.status.getD spotData.status
            willLeaveIn := match updates.willLeaveIn with
              | some w => some w
              | none => spotData.willLeaveIn
            expiresAt := updates.expiresAt.getD spotData.expiresAt
            isPaid := updates.isPaid.getD spotData.isPaid }

/-- Embedding of the transaction body of `confirmParking(spotId,
confirmerUserId)` (`parkingService.ts` lines 611-635). Checked in source
order: existence, then the stored-status guard (only `potentially-free` and
`verified` pass), then expiry with a strict comparison
(`spot.expiresAt < Date.now()`). On success the spot becomes `verified` and a
`parkHistory` document is written. -/
def confirmParking (now : ℤ) (spotDoc : Option ParkingSpot)
    (spotId confirmerUserId : String) :
    Except String (ParkingSpot × ParkHistory) :=
  match spotDoc with
  | none => .error "Spot not found"
  | some spot =>
    if !decide (spot.status = .potentiallyFree) && !decide (spot.status = .verified) then
      .error "Spot is not available"
    else if decide (spot.expiresAt < now) then .error "Spot has expired"
    else
      .ok
        ({ spot with status := .verified, updatedAt := now },
          { userId := confirmerUserId
            spotId := spotId
            authorUserId := spot.userId
            confirmedAt := now
            ratingGiven := none })

/-- Embedding of `awardPoints(userId, basePoints, isPremium, multiplier)`
(`pointsService.ts` lines 22-63). `storedPoints` is the `parkPoints` balance
of the user document, `none` when the document does not exist. Returns the
new balance together with the granted amount
(`finalPoints = isPremium ? Math.floor(basePoints * multiplier) : basePoints`). -/
def awardPoints (userId : String) (storedPoints : Option ℚ) (basePoints : ℚ)
    (isPremium : Bool) (multiplier : ℚ) : Except String (ℚ × ℚ) :=
  if decide (jsTrim userId = "") then .error "User ID is required"
  else if decide (basePoints < 0) then .error "Points cannot be negative"
  else if decide (multiplier < 1) then .error "Multiplier must be at least 1"
  else
    let finalPoints : ℚ :=
      if isPremium then ((⌊basePoints * multiplier⌋ : ℤ) : ℚ) else basePoints
    match storedPoints with
    | none => .error "User not found"
    | some balance => .ok (balance + finalPoints, finalPoints)

/-- Embedding of `awardPointsForVerifiedPin` (`pointsService.ts` lines 73-80):
base reward 10. -/
def awardPointsForVerifiedPin (userId : String) (storedPoints : Option ℚ)
    (isPremium : Bool) (multiplier : ℚ) : Except String (ℚ × ℚ) :=
  awardPoints userId storedPoints 10 isPremium multiplier

/-- Embedding of `awardPointsForParkingConfirmation` (`pointsService.ts` lines
89-95): base reward 5, multiplier fixed at 2. -/
def awardPointsForParkingConfirmation (userId : String)
    (storedPoints : Option ℚ) (isPremium : Bool) : Except String (ℚ × ℚ) :=
  awardPoints userId storedPoints 5 isPremium 2

/-- Embedding of `confirmParking` including its post-transaction reward step
(`parkingService.ts` lines 636-639): after the commit the source runs
`awardPointsForVerifiedPin(confirmerUserId, false)` (base 10 to the
confirmer) and `awardPointsForParkingConfirmation(spot.userId, false)` (base
5 to the owner), both with `isPremium` hardcoded to `false`. The second call
names the transaction-local `spot` binding from outside its scope; the
embedding reads it as the confirmed spot the line evidently refers to. No
reliability-score update is performed anywhere in this flow. Returns the
updated spot, the history document, and the new confirmer and owner
balances. -/
def confirmParkingAndReward (now : ℤ) (spotDoc : Option ParkingSpot)
    (spotId confirmerUserId : String) (confirmerPoints ownerPoints : Option ℚ) :
    Except String (ParkingSpot × ParkHistory × ℚ × ℚ) :=
  match confirmParking now spotDoc spotId confirmerUserId with
  | .error e => .error e
  | .ok (spot2, hist) =>
    match awardPointsForVerifiedPin confirmerUserId confirmerPoints false 2 with
    | .error e => .error e
    | .ok (confirmerBalance, _) =>
      match awardPointsForParkingConfirmation spot2.userId ownerPoints false with
      | .error e => .error e
      | .ok (ownerBalance, _) => .ok (spot2, hist, confirmerBalance, ownerBalance)

/-- Embedding of `updateReliabilityScore(userId, isSuccess)`
(`pointsService.ts` lines 201-223): success adds 2 capped at 100, failure
subtracts 1 floored at 0. `storedScore` is the user's `reliabilityScore`,
`none` when the user does not exist. This function has no caller on the
confirmation path. -/
def updateReliabilityScore (storedScore : Option ℤ) (isSuccess : Bool) :
    Except String ℤ :=
  match storedScore with
  | none => .error "User not found"
  | some score =>
    .ok (if isSuccess then min (score + 2) 100 else max (score - 1) 0)

/-- Embedding of `calculateLevel(points)` (`pointsService.ts` lines 137-149):
`Math.floor(Math.sqrt(points / 100)) + 1` for nonnegative points, else 1.
For a nonnegative integer `p`, `Math.floor(Math.sqrt(p / 100))` equals
`Nat.sqrt (p / 100)` with truncating division, since
`⌊Real.sqrt y⌋ = Nat.sqrt ⌊y⌋` for every nonnegative real `y`. -/
def calculateLevel (points : ℤ) : ℤ :=
  if points < 0 then 1 else (Nat.sqrt (points.toNat / 100) : ℤ) + 1

/-- Embedding of `getPointsForNextLevel(currentLevel)` (`pointsService.ts`
lines 156-164): `(nextLevel - 1) ^ 2 * 100` with `nextLevel = currentLevel + 1`,
and 100 for levels below 1. -/
def getPointsForNextLevel (currentLevel : ℤ) : ℤ :=
  if currentLevel < 1 then 100
  else
    let nextLevel := currentLevel + 1
    (nextLevel - 1) ^ 2 * 100

/-- The Firestore query of `listenToNearbySpots` (`parkingService.ts` lines
573-579): `where('expiresAt', '>', now)` with `now` captured once when the
subscription is created. -/
def listenQuery (now0 : ℤ) (coll : List ParkingSpot) : List ParkingSpot :=
  coll.filter (fun s => decide (now0 < s.expiresAt))

/-- The snapshot callback of `listenToNearbySpots` (`parkingService.ts` lines
580-597): drop spots with an expired stored status, then keep exactly the
spots whose distance from the center, in metres, is at most `radiusM`.
`dist` stands for the floating-point haversine helper `calculateDistance`
(kilometres); the embedding is parametric in it. -/
def listenSnapshotSpots (dist : ℚ → ℚ → ℚ → ℚ → ℚ)
    (centerLat centerLon radiusM : ℚ) (now0 : ℤ) (coll : List ParkingSpot) :
    List ParkingSpot :=
  (listenQuery now0 coll).filter (fun spot =>
    !decide (spot.status ∈ expiredStatuses) &&
      decide (dist centerLat centerLon spot.location.latitude
        spot.location.longitude * 1000 ≤ radiusM))

/-- A map pin as produced by the `useMapPins` hook
(`components/map/useMapPins.ts` lines 10-25). -/
structure MapPin where
  id : String
  coordinate : Location
  type : PinType
  status : ParkingStatus
  expiresAt : ℤ
  authorId : String
  willLeaveIn : Option ℤ
  isPaid : Bool
  createdAt : ℤ
  title : Option String
  description : Option String
  deriving DecidableEq, Repr

/-- The `ParkingSpot → MapPin` conversion of `useMapPins`
(`useMapPins.ts` lines 68-88); `spot.createdAt || Date.now()` falls back to
the processing time when the stored value is the falsy 0. -/
def toMapPin (now : ℤ) (spot : ParkingSpot) : MapPin :=
  { id := spot.id
    coordinate := ⟨spot.location.latitude, spot.location.longitude⟩
    type := spot.pinType
    status := spot.status
    expiresAt := spot.expiresAt
    authorId := spot.userId
    willLeaveIn := spot.willLeaveIn
    isPaid := spot.isPaid
    createdAt := if decide (spot.createdAt = 0) then now else spot.createdAt
    title := spot.title
    description := spot.description }

/-- The snapshot handler of `useMapPins` (`useMapPins.ts` lines 50-90):
re-reads the clock at every delivery, drops every spot with
`expiresAt <= now` or an expired stored status, and converts the rest to
map pins. -/
def useMapPinsOnChange (now : ℤ) (spots : List ParkingSpot) : List MapPin :=
  let activeSpots := spots.filter (fun spot =>
    if decide (spot.expiresAt ≤ now) then false
    else if decide (spot.status ∈ expiredStatuses) then false
    else true)
  activeSpots.map (toMapPin now)

/-- Embedding of the submit flow of AddParkingSpotScreen (`handleSubmit`,
try-block lines 76-130): derive `willLeaveIn`, `expiresAt` and the initial
status from the pin type (walk-in: fixed 10 minutes and `walk_in_pending`;
leaving-soon: the user minutes validated to [2, 60] and
`leaving_soon_active`, plus the duplicate-pin pre-check), then call
`createParkingSpot`. -/
def submitParkingSpot (now : ℤ) (coll : List ParkingSpot) (newId : String)
    (uid : String) (latitude longitude : ℚ) (pinType : PinType)
    (willLeaveInMinutes : ℤ) (isPaid : Bool) (title description : String) :
    Except String ParkingSpot :=
  let createdAt := now
  match pinType with
  | .walkIn =>
    let willLeaveIn : ℤ := 10
    let expiresAt := createdAt + willLeaveIn * 60 * 1000
    createParkingSpot now coll newId
      { userId := uid
        location := ⟨latitude, longitude⟩
        pinType := .walkIn
        willLeaveIn := some willLeaveIn
        isPaid := isPaid
        status := .walkInPending
        expiresAt := expiresAt
        createdAt := createdAt
        priorityScore := 0
        vehicleBrand := none
        vehicleModel := none
        vehicleColor := none
        title := some (jsTrim title)
        description := some (jsTrim description) }
  | .leavingSoon =>
    let willLeaveIn := willLeaveInMinutes
    if decide (willLeaveIn < 2) || decide (willLeaveIn > 60) then
      .error "Leaving time must be between 2 and 60 minutes"
    else
      let expiresAt := createdAt + willLeaveIn * 60 * 1000
      match getUserParkingSpots coll uid false now with
      | .error e => .error e
      | .ok userSpots =>
        let activeLeavingSoon := userSpots.filter (fun s =>
          decide (s.pinType = .leavingSoon) && decide (s.status = .leavingSoonActive) &&
            decide (now < s.expiresAt))
        if decide (0 < activeLeavingSoon.length) then
          .error "You already have an active Leaving Soon pin."
        else
          createParkingSpot now coll newId
            { userId := uid
              location := ⟨latitude, longitude⟩
              pinType := .leavingSoon
              willLeaveIn := some willLeaveIn
              isPaid := isPaid
              status := .leavingSoonActive
              expiresAt := expiresAt
              createdAt := createdAt
              priorityScore := 0
              vehicleBrand := none
              vehicleModel := none
              vehicleColor := none
              title := some (jsTrim title)
              description := some (jsTrim description) }

/-!
Helper lemmas about the embedded operations, followed by the verified facts.
-/

theorem mem_insertByCreatedAtDesc (a x : ParkingSpot) (l : List ParkingSpot) :
    a ∈ insertByCreatedAtDesc x l ↔ a = x ∨ a ∈ l := by
  induction l with
  | nil => simp [insertByCreatedAtDesc]
  | cons b bs ih =>
    unfold insertByCreatedAtDesc
    split
    · simp
    · simp [ih]
      tauto

theorem mem_sortByCreatedAtDesc (a : ParkingSpot) (l : List ParkingSpot) :
    a ∈ sortByCreatedAtDesc l ↔ a ∈ l := by
  induction l with
  | nil => simp [sortByCreatedAtDesc]
  | cons b bs ih => simp [sortByCreatedAtDesc, mem_insertByCreatedAtDesc, ih]

/-- Characterization of a successful `getUserParkingSpots` read with
`includeExpired = false`: it returns the spots of the collection owned by
`userId` whose stored status is not expired and whose `expiresAt` is still in
the future. -/
theorem getUserParkingSpots_active_mem (coll : List ParkingSpot) (uid : String)
    (now : ℤ) (h : ¬(jsTrim uid = "")) :
    ∃ l, getUserParkingSpots coll uid false now = .ok l ∧
      ∀ a, a ∈ l ↔
        (a ∈ coll ∧ a.userId = uid ∧ a.status ∉ expiredStatuses ∧ now < a.expiresAt) := by
  unfold getUserParkingSpots
  simp only [decide_eq_false h, Bool.false_eq_true, if_false]
  refine ⟨_, rfl, fun a => ?_⟩
  rw [mem_sortByCreatedAtDesc]
  simp only [List.mem_filter, decide_eq_true_eq, Bool.not_false, Bool.not_true, if_true]
  constructor
  · rintro ⟨⟨hc, hu⟩, hcond⟩
    refine ⟨hc, hu, ?_, ?_⟩
    · intro hst
      simp [hst] at hcond
    · by_cases hle : a.expiresAt ≤ now
      · simp [hle] at hcond
      · exact lt_of_not_le hle
  · rintro ⟨hc, hu, hst, hlt⟩
    refine ⟨⟨hc, hu⟩, ?_⟩
    simp [hst, not_le.2 hlt]

/-- The owners blocking condition for a new leaving-soon pin, as the claims
phrase it: some spot of the collection belongs to the owner, has pin type
leaving-soon, stored status exactly `leaving_soon_active`, and a future
`expiresAt`. -/
def hasActiveLeavingSoon (coll : List ParkingSpot) (uid : String) (now : ℤ) : Prop :=
  ∃ s ∈ coll, s.userId = uid ∧ s.pinType = PinType.leavingSoon ∧
    s.status = ParkingStatus.leavingSoonActive ∧ now < s.expiresAt

instance hasActiveLeavingSoonDecidable (coll : List ParkingSpot) (uid : String)
    (now : ℤ) : Decidable (hasActiveLeavingSoon coll uid now) :=
  inferInstanceAs (Decidable (∃ s ∈ coll, s.userId = uid ∧
    s.pinType = PinType.leavingSoon ∧
    s.status = ParkingStatus.leavingSoonActive ∧ now < s.expiresAt))

/-- The duplicate-pin filter applied to a `getUserParkingSpots` result is
nonempty exactly when `hasActiveLeavingSoon` holds of the collection. -/
theorem activeLeavingSoon_filter_pos (uid : String) (now : ℤ)
    (l coll : List ParkingSpot)
    (hmem : ∀ a, a ∈ l ↔
      (a ∈ coll ∧ a.userId = uid ∧ a.status ∉ expiredStatuses ∧ now < a.expiresAt)) :
    0 < (l.filter (fun s =>
        decide (s.pinType = PinType.leavingSoon) &&
          decide (s.status = ParkingStatus.leavingSoonActive) &&
          decide (now < s.expiresAt))).length ↔
      hasActiveLeavingSoon coll uid now := by
  rw [List.length_pos_iff_exists_mem]
  constructor
  · rintro ⟨a, hal⟩
    rw [List.mem_filter] at hal
    obtain ⟨hal, hpa⟩ := hal
    simp only [Bool.and_eq_true, decide_eq_true_eq] at hpa
    obtain ⟨⟨hpin, hst⟩, hlt⟩ := hpa
    obtain ⟨hcoll, huid2, -, -⟩ := (hmem a).1 hal
    exact ⟨a, hcoll, huid2, hpin, hst, hlt⟩
  · rintro ⟨sp, hcoll, huid2, hpin, hst, hlt⟩
    refine ⟨sp, ?_⟩
    rw [List.mem_filter]
    refine ⟨(hmem sp).2 ⟨hcoll, huid2, ?_, hlt⟩, ?_⟩
    · rw [hst]; decide
    · simp [hpin, hst, hlt]

/-- A generic concrete spot document used to instantiate facts on concrete
inputs: a fresh walk-in pin by owner `A`. -/
def baseSpot : ParkingSpot :=
  { id := "spot1"
    userId := "A"
    location := ⟨40, -74⟩
    pinType := .walkIn
    willLeaveIn := some 10
    isPaid := false
    status := .walkInPending
    expiresAt := 600000
    createdAt := 0
    updatedAt := 0
    priorityScore := 0
    vehicleBrand := none
    vehicleModel := none
    vehicleColor := none
    title := none
    description := none }

/-- C3: the transaction of `confirmParking` allows only the stored statuses
`potentially-free` and `verified`, so a freshly created walk-in pin (stored
status `walk_in_pending`) and a freshly created leaving-soon pin (stored
status `leaving_soon_active`), both far from expiry, are rejected with the
conflict error `Spot is not available` instead of being confirmable as the
claim (and the creation flow of AddParkingSpotScreen) requires. -/
theorem confirmParking_rejects_freshly_created_pins :
    confirmParking 0 (some baseSpot) "spot1" "B" = .error "Spot is not available" ∧
    confirmParking 0
        (some { baseSpot with
                  pinType := .leavingSoon
                  willLeaveIn := some 15
                  status := .leavingSoonActive
                  expiresAt := 900000 }) "spot1" "B" =
      .error "Spot is not available" := by
  decide

/-- C2 counterexample: `confirmParking` checks the stored status before
expiry, and compares expiry strictly. A spot whose stored status is
`occupied` and whose `expiresAt = 50` lies in the past of `now = 100` is
rejected with the conflict error, not with `Spot has expired`; and a spot
with `expiresAt` exactly equal to `now` is not treated as expired at all: it
is confirmed successfully. -/
theorem confirmParking_expired_claim_counterexample :
    confirmParking 100 (some { baseSpot with status := .occupied, expiresAt := 50 })
        "spot1" "B" = .error "Spot is not available" ∧
    confirmParking 100 (some { baseSpot with status := .occupied, expiresAt := 50 })
        "spot1" "B" ≠ .error "Spot has expired" ∧
    confirmParking 100 (some { baseSpot with status := .potentiallyFree, expiresAt := 100 })
        "spot1" "B" =
      .ok ({ baseSpot with status := .verified, expiresAt := 100, updatedAt := 100 },
        { userId := "B"
          spotId := "spot1"
          authorUserId := "A"
          confirmedAt := 100
          ratingGiven := none }) := by
  decide

/-- C2 (amended): `confirmParking` returns `Spot has expired` exactly on the
spots whose stored status is `potentially-free` or `verified` and whose
`expiresAt` is strictly in the past; when the stored status is any other
value the status check runs first and the call returns the conflict error
`Spot is not available` regardless of expiration. -/
theorem confirmParking_expiry_behavior (now : ℤ) (spot : ParkingSpot)
    (spotId cid : String) :
    ((spot.status = .potentiallyFree ∨ spot.status = .verified) →
      spot.expiresAt < now →
      confirmParking now (some spot) spotId cid = .error "Spot has expired") ∧
    (spot.status ≠ .potentiallyFree → spot.status ≠ .verified →
      confirmParking now (some spot) spotId cid = .error "Spot is not available") := by
  unfold confirmParking
  constructor
  · intro hs hexp
    rcases hs with h | h <;> simp [h, hexp]
  · intro h1 h2
    simp [decide_eq_false h1, decide_eq_false h2]

/-- Witness for `confirmParking_expiry_behavior`: a potentially-free spot
with `expiresAt = 50` confirmed at `now = 100` yields the expiry error. -/
theorem confirmParking_expiry_behavior_witness :
    confirmParking 100 (some { baseSpot with status := .potentiallyFree, expiresAt := 50 })
      "spot1" "B" = .error "Spot has expired" :=
  (confirmParking_expiry_behavior 100
    { baseSpot with status := .potentiallyFree, expiresAt := 50 } "spot1" "B").1
    (Or.inl rfl) (by decide)


/-- C1: the post-commit reward step of `confirmParking` grants the confirmer
the base-10 verified-pin award and the owner the base-5 confirmation award,
with `isPremium` hardcoded to `false` at both call sites, so on a successful
confirmation (owner `A`, confirmer `B`, both balances 0) the confirmer ends
at 10 points and the owner at 5, and no premium multiplier or reliability
adjustment is ever applied. -/
theorem confirmParkingAndReward_grants_ten_to_confirmer_five_to_owner :
    confirmParkingAndReward 1000000
        (some { baseSpot with status := .potentiallyFree, expiresAt := 1900000 })
        "spot1" "B" (some 0) (some 0) =
      .ok ({ baseSpot with status := .verified, expiresAt := 1900000, updatedAt := 1000000 },
        { userId := "B"
          spotId := "spot1"
          authorUserId := "A"
          confirmedAt := 1000000
          ratingGiven := none },
        10, 5) := by
  have hc : confirmParking 1000000
      (some { baseSpot with status := .potentiallyFree, expiresAt := 1900000 }) "spot1" "B" =
      .ok ({ baseSpot with status := .verified, expiresAt := 1900000, updatedAt := 1000000 },
        { userId := "B"
          spotId := "spot1"
          authorUserId := "A"
          confirmedAt := 1000000
          ratingGiven := none }) := by decide
  have ha : awardPoints "B" (some 0) 10 false 2 = .ok (10, 10) := by
    norm_num [awardPoints, show decide (jsTrim "B" = "") = false from by decide]
  have hb : awardPoints "A" (some 0) 5 false 2 = .ok (5, 5) := by
    norm_num [awardPoints, show decide (jsTrim "A" = "") = false from by decide]
  unfold confirmParkingAndReward awardPointsForVerifiedPin awardPointsForParkingConfirmation
  rw [hc]
  simp only []
  rw [ha]
  simp only [baseSpot]
  rw [hb]

/-- C8: for an existing user, nonnegative base points and a multiplier of at
least 1, `awardPoints` succeeds and adds exactly
`granted = isPremium ? floor(basePoints * multiplier) : basePoints` to the
stored balance, returning `granted`; in particular base 10 with multiplier 2
adds 20 for a premium account and 10 otherwise. -/
theorem awardPoints_increments_balance_by_granted (uid : String)
    (bal basePoints multiplier : ℚ) (isPremium : Bool)
    (huid : ¬(jsTrim uid = "")) (hb : 0 ≤ basePoints) (hm : 1 ≤ multiplier) :
    awardPoints uid (some bal) basePoints isPremium multiplier =
      .ok (bal + (if isPremium then ((⌊basePoints * multiplier⌋ : ℤ) : ℚ) else basePoints),
        if isPremium then ((⌊basePoints * multiplier⌋ : ℤ) : ℚ) else basePoints) ∧
    awardPoints uid (some bal) 10 true 2 = .ok (bal + 20, 20) ∧
    awardPoints uid (some bal) 10 false 2 = .ok (bal + 10, 10) := by
  have h0 : decide (jsTrim uid = "") = false := decide_eq_false huid
  refine ⟨?_, ?_, ?_⟩
  · simp [awardPoints, h0, decide_eq_false (not_lt.2 hb), decide_eq_false (not_lt.2 hm)]
  · norm_num [awardPoints, h0]
  · norm_num [awardPoints, h0]

/-- Witness for `awardPoints_increments_balance_by_granted` at user `u`,
balance 1, base 10, premium, multiplier 2. -/
theorem awardPoints_increments_balance_by_granted_witness :
    awardPoints "u" (some 1) 10 true 2 = .ok (1 + 20, 20) :=
  (awardPoints_increments_balance_by_granted "u" 1 10 2 true (by decide)
    (by norm_num) (by norm_num)).2.1

/-- C9: a successful `updateParkingSpot` never changes the documents id,
owner, coordinates, creation time, priority score or vehicle fields: the
merge writes only `title`, `description`, `pinType`, `status`, `willLeaveIn`,
`expiresAt`, `isPaid` and `updatedAt`. -/
theorem updateParkingSpot_preserves_identity_fields (now : ℤ)
    (spot spot2 : ParkingSpot) (spotId userId : String) (updates : SpotUpdates)
    (h : updateParkingSpot now (some spot) spotId userId updates = .ok spot2) :
    spot2.id = spot.id ∧ spot2.userId = spot.userId ∧
      spot2.location = spot.location ∧ spot2.createdAt = spot.createdAt ∧
      spot2.priorityScore = spot.priorityScore ∧
      spot2.vehicleBrand = spot.vehicleBrand ∧
      spot2.vehicleModel = spot.vehicleModel ∧
      spot2.vehicleColor = spot.vehicleColor := by
  simp only [updateParkingSpot] at h
  split at h
  · exact Except.noConfusion h
  split at h
  · exact Except.noConfusion h
  split at h
  · exact Except.noConfusion h
  split at h
  · exact Except.noConfusion h
  injection h with h2
  subst h2
  exact ⟨rfl, rfl, rfl, rfl, rfl, rfl, rfl, rfl⟩

/-- Witness for `updateParkingSpot_preserves_identity_fields`: a concrete
successful owner edit that changes title, status, expiry and paid flag. -/
theorem updateParkingSpot_preserves_identity_fields_witness :
    ({ baseSpot with
        title := some "New title"
        status := ParkingStatus.verified
        expiresAt := 700000
        isPaid := true
        updatedAt := 5 } : ParkingSpot).id = baseSpot.id ∧
    ({ baseSpot with
        title := some "New title"
        status := ParkingStatus.verified
        expiresAt := 700000
        isPaid := true
        updatedAt := 5 } : ParkingSpot).userId = baseSpot.userId ∧
    ({ baseSpot with
        title := some "New title"
        status := ParkingStatus.verified
        expiresAt := 700000
        isPaid := true
        updatedAt := 5 } : ParkingSpot).location = baseSpot.location ∧
    ({ baseSpot with
        title := some "New title"
        status := ParkingStatus.verified
        expiresAt := 700000
        isPaid := true
        updatedAt := 5 } : ParkingSpot).createdAt = baseSpot.createdAt ∧
    ({ baseSpot with
        title := some "New title"
        status := ParkingStatus.verified
        expiresAt := 700000
        isPaid := true
        updatedAt := 5 } : ParkingSpot).priorityScore = baseSpot.priorityScore ∧
    ({ baseSpot with
        title := some "New title"
        status := ParkingStatus.verified
        expiresAt := 700000
        isPaid := true
        updatedAt := 5 } : ParkingSpot).vehicleBrand = baseSpot.vehicleBrand ∧
    ({ baseSpot with
        title := some "New title"
        status := ParkingStatus.verified
        expiresAt := 700000
        isPaid := true
        updatedAt := 5 } : ParkingSpot).vehicleModel = baseSpot.vehicleModel ∧
    ({ baseSpot with
        title := some "New title"
        status := ParkingStatus.verified
        expiresAt := 700000
        isPaid := true
        updatedAt := 5 } : ParkingSpot).vehicleColor = baseSpot.vehicleColor :=
  updateParkingSpot_preserves_identity_fields 5 baseSpot
    { baseSpot with
        title := some "New title"
        status := ParkingStatus.verified
        expiresAt := 700000
        isPaid := true
        updatedAt := 5 }
    "spot1" "A"
    { title := some "New title"
      description := none
      pinType := none
      status := some ParkingStatus.verified
      willLeaveIn := none
      expiresAt := some 700000
      isPaid := some true }
    (by decide)

/-- C10: for every level of at least 1, the next-level threshold is
`level ^ 2 * 100` points, and a user holding exactly that many points is
placed by `calculateLevel` at `level + 1`. -/
theorem calculateLevel_of_getPointsForNextLevel (L : ℤ) (hL : 1 ≤ L) :
    getPointsForNextLevel L = L ^ 2 * 100 ∧
    calculateLevel (getPointsForNextLevel L) = L + 1 := by
  have hnot : ¬L < 1 := not_lt.2 hL
  have h1 : getPointsForNextLevel L = L ^ 2 * 100 := by
    simp only [getPointsForNextLevel, hnot, if_false]
    ring
  refine ⟨h1, ?_⟩
  rw [h1]
  obtain ⟨n, rfl⟩ : ∃ n : ℕ, L = (n : ℤ) :=
    ⟨L.toNat, (Int.toNat_of_nonneg (le_trans zero_le_one hL)).symm⟩
  have hcast : ((n : ℤ) ^ 2 * 100) = ((n ^ 2 * 100 : ℕ) : ℤ) := by push_cast; ring
  rw [hcast]
  unfold calculateLevel
  have hneg : ¬(((n ^ 2 * 100 : ℕ) : ℤ) < 0) := not_lt.2 (by positivity)
  rw [if_neg hneg, Int.toNat_natCast]
  have hdiv : n ^ 2 * 100 / 100 = n ^ 2 := by omega
  rw [hdiv, Nat.sqrt_eq']

/-- Witness for `calculateLevel_of_getPointsForNextLevel` at level 3:
the threshold is 900 points and 900 points place the user at level 4. -/
theorem calculateLevel_of_getPointsForNextLevel_witness :
    getPointsForNextLevel 3 = 3 ^ 2 * 100 ∧
    calculateLevel (getPointsForNextLevel 3) = 3 + 1 :=
  calculateLevel_of_getPointsForNextLevel 3 (by norm_num)


/-- C4: whatever snapshot the realtime listener delivers, the `useMapPins`
handler re-reads the clock and drops every spot whose `expiresAt` has
passed, so each delivered pin has a strictly future expiry and a previously
delivered spot whose `expiresAt` has passed the processing time is absent
from the next delivered pin list, with no unsubscribe or status write
involved. -/
theorem useMapPins_excludes_expired (dist : ℚ → ℚ → ℚ → ℚ → ℚ)
    (centerLat centerLon radiusM : ℚ) (now0 now : ℤ) (coll : List ParkingSpot) :
    (∀ pin ∈ useMapPinsOnChange now
        (listenSnapshotSpots dist centerLat centerLon radiusM now0 coll),
      now < pin.expiresAt) ∧
    (∀ spot : ParkingSpot, spot.expiresAt ≤ now →
      toMapPin now spot ∉ useMapPinsOnChange now
        (listenSnapshotSpots dist centerLat centerLon radiusM now0 coll)) := by
  have main : ∀ pin ∈ useMapPinsOnChange now
      (listenSnapshotSpots dist centerLat centerLon radiusM now0 coll),
      now < pin.expiresAt := by
    intro pin hpin
    unfold useMapPinsOnChange at hpin
    rw [List.mem_map] at hpin
    obtain ⟨sp, hmem, rfl⟩ := hpin
    rw [List.mem_filter] at hmem
    obtain ⟨-, hcond⟩ := hmem
    by_cases hle : sp.expiresAt ≤ now
    · simp [hle] at hcond
    · exact not_le.1 hle
  exact ⟨main, fun sp hexp hmem => absurd (main _ hmem) (not_lt.2 hexp)⟩

/-- Witness for `useMapPins_excludes_expired`: a spot that expired at 100 is
absent from the pins computed at time 200 even though the subscription-time
query (created at 0) still matches it. -/
theorem useMapPins_excludes_expired_witness :
    toMapPin 200 { baseSpot with expiresAt := 100 } ∉
      useMapPinsOnChange 200
        (listenSnapshotSpots (fun _ _ _ _ => 0) 40 (-74) 5000 0
          [{ baseSpot with expiresAt := 100 }]) :=
  (useMapPins_excludes_expired (fun _ _ _ _ => 0) 40 (-74) 5000 0 200
    [{ baseSpot with expiresAt := 100 }]).2
    { baseSpot with expiresAt := 100 } (by decide)

/-- The stored statuses the specification regards as active (non-terminal):
`potentially-free`, `verified`, `walk_in_pending`, `leaving_soon_active`. -/
def activeStatuses : List ParkingStatus :=
  [.potentiallyFree, .verified, .walkInPending, .leavingSoonActive]

/-- C7: a spot is delivered by the realtime listener exactly when it passed
the subscription-time query, its stored status is not expired, and the
distance computed by the (abstracted) haversine helper, converted to metres,
is at most the requested radius; consequently every delivered spot lies
within the radius, and every spot that is effectively active at a delivery
time after the subscription started and lies within the radius is delivered.
The statement quantifies over the distance function, so it holds in
particular for the floating-point haversine of the source. -/
theorem listenSnapshotSpots_delivers_iff (dist : ℚ → ℚ → ℚ → ℚ → ℚ)
    (centerLat centerLon radiusM : ℚ) (now0 now : ℤ)
    (coll : List ParkingSpot) (spot : ParkingSpot) :
    (spot ∈ listenSnapshotSpots dist centerLat centerLon radiusM now0 coll ↔
      spot ∈ coll ∧ now0 < spot.expiresAt ∧ spot.status ∉ expiredStatuses ∧
        dist centerLat centerLon spot.location.latitude spot.location.longitude
          * 1000 ≤ radiusM) ∧
    (now0 ≤ now → now < spot.expiresAt → spot.status ∈ activeStatuses →
      spot ∈ coll →
      dist centerLat centerLon spot.location.latitude spot.location.longitude
        * 1000 ≤ radiusM →
      spot ∈ listenSnapshotSpots dist centerLat centerLon radiusM now0 coll) := by
  have hiff : spot ∈ listenSnapshotSpots dist centerLat centerLon radiusM now0 coll ↔
      spot ∈ coll ∧ now0 < spot.expiresAt ∧ spot.status ∉ expiredStatuses ∧
        dist centerLat centerLon spot.location.latitude spot.location.longitude
          * 1000 ≤ radiusM := by
    unfold listenSnapshotSpots listenQuery
    simp only [List.mem_filter, Bool.and_eq_true, Bool.not_eq_true',
      decide_eq_true_eq, decide_eq_false_iff_not]
    tauto
  have hact : ∀ st ∈ activeStatuses, st ∉ expiredStatuses := by decide
  exact ⟨hiff, fun h1 h2 h3 h4 h5 =>
    hiff.2 ⟨h4, lt_of_le_of_lt h1 h2, hact _ h3, h5⟩⟩

/-- Witness for `listenSnapshotSpots_delivers_iff`: an unexpired
potentially-free spot within radius is delivered. -/
theorem listenSnapshotSpots_delivers_iff_witness :
    { baseSpot with status := ParkingStatus.potentiallyFree, expiresAt := 2 } ∈
      listenSnapshotSpots (fun _ _ _ _ => 0) 40 (-74) 5000 0
        [{ baseSpot with status := ParkingStatus.potentiallyFree, expiresAt := 2 }] :=
  (listenSnapshotSpots_delivers_iff (fun _ _ _ _ => 0) 40 (-74) 5000 0 1
    [{ baseSpot with status := ParkingStatus.potentiallyFree, expiresAt := 2 }]
    { baseSpot with status := ParkingStatus.potentiallyFree, expiresAt := 2 }).2
    (by decide) (by decide) (by decide) (by decide) (by norm_num)


/-- Concrete creation payload: owner `A` submits a leaving-soon pin with 15
minutes, expiring at 900000. -/
def baseData : SpotData :=
  { userId := "A"
    location := ⟨40, -74⟩
    pinType := .leavingSoon
    willLeaveIn := some 15
    isPaid := false
    status := .leavingSoonActive
    expiresAt := 900000
    createdAt := 0
    priorityScore := 0
    vehicleBrand := none
    vehicleModel := none
    vehicleColor := none
    title := none
    description := none }

/-- C5 counterexample: owner `A` holds a leaving-soon spot that is
effectively active at `now = 0` (future `expiresAt = 1000`, stored status
`potentially-free`, which is neither expired nor consumed), yet
`createParkingSpot` accepts a new leaving-soon pin for `A` because its
uniqueness pre-check matches only the stored status `leaving_soon_active`. -/
theorem createParkingSpot_ignores_nonactive_status_counterexample :
    ({ baseSpot with
        pinType := PinType.leavingSoon
        willLeaveIn := some 15
        status := ParkingStatus.potentiallyFree
        expiresAt := 1000 } : ParkingSpot).userId = baseData.userId ∧
    (0 : ℤ) < 1000 ∧
    ParkingStatus.potentiallyFree ∉ expiredStatuses ∧
    createParkingSpot 0
        [{ baseSpot with
            pinType := PinType.leavingSoon
            willLeaveIn := some 15
            status := ParkingStatus.potentiallyFree
            expiresAt := 1000 }] "new1" baseData =
      .ok { id := "new1"
            userId := "A"
            location := ⟨40, -74⟩
            pinType := .leavingSoon
            willLeaveIn := some 15
            isPaid := false
            status := .leavingSoonActive
            expiresAt := 900000
            createdAt := 0
            updatedAt := 0
            priorityScore := 0
            vehicleBrand := none
            vehicleModel := none
            vehicleColor := none
            title := none
            description := none } := by
  decide

/-- C5 (amended): under valid creation input (nonempty owner id, coordinates
in range, pin type leaving-soon, `willLeaveIn` within [2, 60]),
`createParkingSpot` rejects with the duplicate-pin error exactly when the
owner already has a spot with pin type leaving-soon, stored status exactly
`leaving_soon_active`, and a future `expiresAt`; an effectively active
leaving-soon spot stored under any other non-expired status does not block
creation. -/
theorem createParkingSpot_dup_rejects_iff (now : ℤ) (coll : List ParkingSpot)
    (newId : String) (data : SpotData)
    (huid : ¬(jsTrim data.userId = ""))
    (hlat1 : ¬(data.location.latitude < -90))
    (hlat2 : ¬(data.location.latitude > 90))
    (hlon1 : ¬(data.location.longitude < -180))
    (hlon2 : ¬(data.location.longitude > 180))
    (hty : data.pinType = PinType.leavingSoon)
    (w : ℤ) (hw : data.willLeaveIn = some w) (hw1 : ¬(w < 2)) (hw2 : ¬(w > 60)) :
    createParkingSpot now coll newId data =
        .error "You already have an active Leaving Soon pin." ↔
      hasActiveLeavingSoon coll data.userId now := by
  obtain ⟨l, hl, hmem⟩ := getUserParkingSpots_active_mem coll data.userId now huid
  have hfilter := activeLeavingSoon_filter_pos data.userId now l coll hmem
  unfold createParkingSpot
  rw [hw, hl]
  by_cases hact : hasActiveLeavingSoon coll data.userId now
  · simp [decide_eq_false huid, decide_eq_false hlat1, decide_eq_false hlat2,
      decide_eq_false hlon1, decide_eq_false hlon2, decide_eq_false hw1,
      decide_eq_false hw2, hty, hact, hfilter.2 hact]
  · have hneg : ¬(0 < (l.filter (fun sp =>
        decide (sp.pinType = PinType.leavingSoon) &&
          decide (sp.status = ParkingStatus.leavingSoonActive) &&
          decide (now < sp.expiresAt))).length) :=
      fun hp => hact (hfilter.1 hp)
    simp only [decide_eq_false huid, decide_eq_false hlat1, decide_eq_false hlat2,
      decide_eq_false hlon1, decide_eq_false hlon2, decide_eq_false hw1,
      decide_eq_false hw2, hty, decide_eq_false hneg, Bool.or_self,
      Bool.false_eq_true, if_false, eq_self_iff_true, decide_True, Bool.and_self,
      Bool.true_and, Bool.and_false, if_true]
    constructor
    · intro hcontra
      split at hcontra
      · simp at hcontra
      split at hcontra
      · simp at hcontra
      · simp at hcontra
    · exact fun h => absurd h hact

/-- C6: in the leaving-soon submit flow, `willLeaveInMinutes = 1` and `61`
are rejected with the range validation error, while any value in [2, 60]
(under otherwise valid input and no blocking pin) succeeds and stores
`expiresAt = createdAt + minutes * 60000` with `createdAt = now`; at 15
minutes this is `createdAt + 900000`. -/
theorem submitParkingSpot_leaving_soon_validation (now : ℤ)
    (coll : List ParkingSpot) (newId uid : String) (lat lon : ℚ)
    (isPaid : Bool) (title desc : String)
    (huid : ¬(jsTrim uid = ""))
    (hlat1 : ¬(lat < -90)) (hlat2 : ¬(lat > 90))
    (hlon1 : ¬(lon < -180)) (hlon2 : ¬(lon > 180))
    (hnow : 0 ≤ now)
    (hnodup : ¬hasActiveLeavingSoon coll uid now) :
    submitParkingSpot now coll newId uid lat lon .leavingSoon 1 isPaid title desc =
      .error "Leaving time must be between 2 and 60 minutes" ∧
    submitParkingSpot now coll newId uid lat lon .leavingSoon 61 isPaid title desc =
      .error "Leaving time must be between 2 and 60 minutes" ∧
    ∀ m : ℤ, 2 ≤ m → m ≤ 60 →
      ∃ spot,
        submitParkingSpot now coll newId uid lat lon .leavingSoon m isPaid title desc =
          .ok spot ∧
        spot.expiresAt = now + m * 60000 ∧ spot.createdAt = now := by
  refine ⟨by simp [submitParkingSpot], by simp [submitParkingSpot], ?_⟩
  intro m hm1 hm2
  have hm1' : ¬(m < 2) := not_lt.2 hm1
  have hm2' : ¬(m > 60) := not_lt.2 hm2
  obtain ⟨l, hl, hmem⟩ := getUserParkingSpots_active_mem coll uid now huid
  have hfilter := activeLeavingSoon_filter_pos uid now l coll hmem
  have hneg : ¬(0 < (l.filter (fun sp =>
      decide (sp.pinType = PinType.leavingSoon) &&
        decide (sp.status = ParkingStatus.leavingSoonActive) &&
        decide (now < sp.expiresAt))).length) :=
    fun hp => hnodup (hfilter.1 hp)
  have hne : ¬(now + m * 60 * 1000 = 0) := by omega
  have hlt : ¬(now + m * 60 * 1000 < now) := by omega
  refine ⟨{ id := newId
            userId := uid
            location := ⟨lat, lon⟩
            pinType := .leavingSoon
            willLeaveIn := some m
            isPaid := isPaid
            status := .leavingSoonActive
            expiresAt := now + m * 60 * 1000
            createdAt := now
            updatedAt := now
            priorityScore := 0
            vehicleBrand := none
            vehicleModel := none
            vehicleColor := none
            title := some (jsTrim title)
            description := some (jsTrim desc) }, ?_,
    show now + m * 60 * 1000 = now + m * 60000 by ring, rfl⟩
  unfold submitParkingSpot createParkingSpot
  dsimp only
  rw [hl]
  simp only [decide_eq_false hm1', decide_eq_false hm2', decide_eq_false huid,
    decide_eq_false hlat1, decide_eq_false hlat2, decide_eq_false hlon1,
    decide_eq_false hlon2, decide_eq_false hneg, decide_eq_false hne,
    decide_eq_false hlt, decide_eq_false (lt_irrefl (0 : ℚ)),
    eq_self_iff_true, decide_True, Bool.or_self, Bool.false_eq_true, if_false,
    Bool.true_and, Bool.and_false, Bool.or_false, if_true]

/-- Witness for `submitParkingSpot_leaving_soon_validation`: at
`now = 1000000` with an empty collection, 15 minutes succeed with
`expiresAt = 1000000 + 15 * 60000 = 1900000`. -/
theorem submitParkingSpot_leaving_soon_validation_witness :
    ∃ spot,
      submitParkingSpot 1000000 [] "new1" "A" 40 (-74) .leavingSoon 15 false
          "Nice spot here" "Next to the bakery" =
        .ok spot ∧
      spot.expiresAt = 1000000 + 15 * 60000 ∧ spot.createdAt = 1000000 :=
  (submitParkingSpot_leaving_soon_validation 1000000 [] "new1" "A" 40 (-74)
    false "Nice spot here" "Next to the bakery" (by decide) (by decide)
    (by decide) (by decide) (by decide) (by decide) (by decide)).2.2
    15 (by decide) (by decide)

/-- Witness for `createParkingSpot_dup_rejects_iff`: an owner holding a
leaving-soon spot stored as `leaving_soon_active` with future expiry is
rejected. -/
theorem createParkingSpot_dup_rejects_iff_witness :
    createParkingSpot 0
        [{ baseSpot with
            pinType := PinType.leavingSoon
            willLeaveIn := some 15
            status := ParkingStatus.leavingSoonActive
            expiresAt := 1000 }] "new1" baseData =
      .error "You already have an active Leaving Soon pin." :=
  (createParkingSpot_dup_rejects_iff 0
    [{ baseSpot with
        pinType := PinType.leavingSoon
        willLeaveIn := some 15
        status := ParkingStatus.leavingSoonActive
        expiresAt := 1000 }] "new1" baseData
    (by decide) (by decide) (by decide) (by decide) (by decide) rfl
    15 rfl (by decide) (by decide)).2 (by decide)

end ParkShare

